import Mathlib

/-!
Verification of the llm-websocket-server-example gateway.

The development shallowly embeds the two adapters of the repository:

* `voiceflow_adapter.py` — `VoiceFlowAdapter`: a WebSocket server that relays
  client messages to the VoiceFlow REST "interact" API and assembles the
  returned traces into one downstream message (`process_traces`).
* `retell_adaptor.py` — `RetellVoceraAdapter`: two WebSocket servers (Retell
  side and Vocera side) with broadcast send helpers and per-message handlers.

Python dicts keyed by client id are modelled as lists of keys (insertion
ordered, keys unique); outbound effects (send_message / close / error prints)
are modelled as explicit intent lists returned by the handlers; `json.loads`
failure is modelled by handing the handler `none` instead of a parsed value.
-/

/-- JSON values, as produced by `json.loads` / consumed by `json.dumps`.
Objects keep their (unique) keys in insertion order, matching Python dicts. -/
inductive Json where
  | null
  | bool (b : Bool)
  | num (n : Int)
  | str (s : String)
  | arr (xs : List Json)
  | obj (fields : List (String × Json))

/-- Python `d.get(key)` on a JSON object: `none` when the key is absent or the
value is not an object (in Python a non-dict receiver raises, which every
caller catches; the handler-level theorems account for that). -/
def Json.getField : Json → String → Option Json
  | .obj fields, key => fields.lookup key
  | _, _ => none

/-- Python `d.get(key, dflt)` used where the code needs a string. A present
non-string value makes the Python code raise at the next string method, which
the enclosing handler catches and turns into a drop; it is modelled as the
default. -/
def jsonGetStrD (j : Json) (key dflt : String) : String :=
  match j.getField key with
  | some (.str s) => s
  | _ => dflt

/-- Python `d.get(key)` for the integer response ids of the Retell protocol:
`none` when absent (Python `None`). -/
def jsonGetIntOpt (j : Json) (key : String) : Option Int :=
  match j.getField key with
  | some (.num n) => some n
  | _ => none

/-- Python `d.get(key)` where the code compares the value against string
literals: a non-string value matches no literal, same as `none`. -/
def jsonGetStrOpt (j : Json) (key : String) : Option String :=
  match j.getField key with
  | some (.str s) => some s
  | _ => none

/-- Python `d.get(key, [])` used as a list. -/
def jsonGetArrD (j : Json) (key : String) : List Json :=
  match j.getField key with
  | some (.arr xs) => xs
  | _ => []

/-- Whitespace recognised by Python `str.strip()` (ASCII subset; the adapters
exchange ASCII protocol text). -/
def pyIsSpace (c : Char) : Bool :=
  c == ' ' || c == '\t' || c == '\n' || c == '\r' || c == '\x0b' || c == '\x0c'

/-- Python `s.strip()`. -/
def pyStrip (s : String) : String :=
  String.mk (((s.toList.dropWhile pyIsSpace).reverse.dropWhile pyIsSpace).reverse)

/-- Python `s.lower()` (ASCII case folding). -/
def pyLower (s : String) : String :=
  String.mk (s.toList.map Char.toLower)

/-- Whether `pat` is an initial segment of `l`. -/
def listStartsWith : List Char → List Char → Bool
  | _, [] => true
  | [], _ :: _ => false
  | a :: as, b :: bs => a == b && listStartsWith as bs

/-- Whether `pat` occurs contiguously inside `l`. -/
def listContainsSub : List Char → List Char → Bool
  | [], pat => pat.isEmpty
  | a :: tl, pat => listStartsWith (a :: tl) pat || listContainsSub tl pat

/-- Python `needle in hay` on strings. -/
def strContains (hay needle : String) : Bool :=
  listContainsSub hay.toList needle.toList

/-! ### VoiceFlow adapter: `process_traces` (voiceflow_adapter.py, lines 196-226)

`process_traces` walks the list of traces returned by one VoiceFlow interact
call.  For a `speak`/`text` trace it reads `payload.message` and collects it
when non-empty; for an `end` trace it immediately sends an end notification;
after the loop, if anything was collected it sends one message whose content
is the collected strings joined by single spaces and returns that string,
otherwise it sends nothing more and returns `None`. -/

/-- Trace type test `trace_type == 'speak' or trace_type == 'text'`. -/
def isSpeakOrText (t : Json) : Bool :=
  match t.getField "type" with
  | some (.str s) => s == "speak" || s == "text"
  | _ => false

/-- Trace type test for the `end` branch of the `elif` chain. -/
def isEndTrace (t : Json) : Bool :=
  match t.getField "type" with
  | some (.str s) => s == "end"
  | _ => false

/-- Python `trace.get('payload', {}).get('message', '')`. -/
def traceMessage (t : Json) : String :=
  jsonGetStrD ((t.getField "payload").getD (.obj [])) "message" ""

/-- The message sent for an `end` trace. -/
def endMessageJson : Json :=
  .obj [("type", .str "end"), ("content", .str "Conversation ended")]

/-- The single combined downstream message `{"content": <joined>}`. -/
def contentMessageJson (s : String) : Json :=
  .obj [("content", .str s)]

/-- The `responses` list built by the loop: the non-empty `payload.message`
strings of the `speak`/`text` traces, in trace order. -/
def speakTextMessages (traces : List Json) : List String :=
  traces.filterMap fun t =>
    if isSpeakOrText t then
      if traceMessage t = "" then none else some (traceMessage t)
    else none

/-- The end notifications sent while walking the loop (the `elif 'end'`
branch), in trace order. -/
def endEmissions (traces : List Json) : List Json :=
  traces.filterMap fun t =>
    if isSpeakOrText t then none
    else if isEndTrace t then some endMessageJson
    else none

/-- `VoiceFlowAdapter.process_traces` (voiceflow_adapter.py, lines 196-226):
returns the list of messages sent to the client, in send order, together with
the Python return value (`some` joined string, or `none`).  The end
notifications are sent during the loop, hence before the single combined
content message. -/
def process_traces (traces : List Json) : List Json × Option String :=
  let responses := speakTextMessages traces
  if responses = [] then (endEmissions traces, none)
  else (endEmissions traces ++ [contentMessageJson (String.intercalate " " responses)],
        some (String.intercalate " " responses))

/-- Recognises the combined content message among the sent messages: a
one-field object `{"content": <string>}` (the end notification has two
fields). -/
def isContentEmission : Json → Bool
  | .obj [(k, .str _)] => k == "content"
  | _ => false

/-- `VoiceFlowAdapter.on_client_message` (voiceflow_adapter.py, lines 82-94),
abstracted over the HTTP call: `none` input models a `json.loads` failure.
The result is the unchanged per-adapter session map together with the events
of the handler: `forwarded c` when `handle_client_message` is invoked with the
stripped content `c`, `logged` when the exception handler printed an error. -/
inductive VFEvent where
  | forwarded (content : String)
  | logged

def VFEvent.isForwarded : VFEvent → Bool
  | .forwarded _ => true
  | .logged => false

def vf_on_client_message (sessions : List (Nat × String)) (raw : Option Json) :
    List (Nat × String) × List VFEvent :=
  match raw with
  | none => (sessions, [.logged])
  | some msg =>
    let content := pyStrip (jsonGetStrD msg "content" "")
    if content = "" then (sessions, [])
    else (sessions, [.forwarded content])

/-- `VoiceFlowAdapter.on_client_disconnect` (voiceflow_adapter.py, lines
75-80): `if client_id in sessions: del sessions[client_id]`. -/
def vf_on_client_disconnect (sessions : List (Nat × String)) (clientId : Nat) :
    List (Nat × String) :=
  if clientId ∈ sessions.map Prod.fst then sessions.filter (fun p => p.1 ≠ clientId)
  else sessions

/-! ### Retell/Vocera adapter: `RetellVoceraAdapter` (retell_adaptor.py)

The mutable attributes touched by the handlers are `retell_clients`,
`vocera_clients` (dicts keyed by client id, modelled by their key lists) and
`last_response_id` (initially `None`, set from `data.get("response_id")`).
Outbound effects are modelled as intents; the transport close operation is a
constructor the handlers may emit (the code never does). -/

structure AdapterState where
  retell_clients : List Nat
  vocera_clients : List Nat
  last_response_id : Option Int

/-- Outbound effect of one handler invocation, in order. `logError` records an
`except` branch printing an error; the adapter never emits a close intent. -/
inductive Intent where
  | toRetellClient (clientId : Nat) (payload : Json)
  | broadcastRetell (payload : Json)
  | broadcastVocera (payload : Json)
  | closeRetellClient (clientId : Nat)
  | closeVoceraClient (clientId : Nat)
  | logError (tag : String)

def Intent.isSend : Intent → Bool
  | .toRetellClient _ _ => true
  | .broadcastRetell _ => true
  | .broadcastVocera _ => true
  | _ => false

def Intent.isClose : Intent → Bool
  | .closeRetellClient _ => true
  | .closeVoceraClient _ => true
  | _ => false

/-- Python dict assignment `d[k] = v` on the key list: an existing key keeps
its position, a new key is appended. -/
def dictInsert (l : List Nat) (k : Nat) : List Nat :=
  if k ∈ l then l else l ++ [k]

/-- Python `if k in d: del d[k]` on the key list; dict keys are unique, so
deletion removes every occurrence of `k`. -/
def dictRemove (l : List Nat) (k : Nat) : List Nat :=
  if k ∈ l then l.filter (fun x => x ≠ k) else l

/-- The initial config envelope sent on every new Retell connection
(retell_adaptor.py, lines 88-95). -/
def configJson : Json :=
  .obj [("response_type", .str "config"),
        ("config", .obj [("auto_reconnect", .bool true),
                         ("call_details", .bool true),
                         ("transcript_with_tool_calls", .bool true)])]

/-- `RetellVoceraAdapter.on_retell_connect` (retell_adaptor.py, lines 81-96):
store the client, then send it the config envelope. -/
def on_retell_connect (s : AdapterState) (clientId : Nat) :
    AdapterState × List Intent :=
  ({ s with retell_clients := dictInsert s.retell_clients clientId },
   [.toRetellClient clientId configJson])

/-- `RetellVoceraAdapter.on_retell_disconnect` (retell_adaptor.py, lines
98-103). -/
def on_retell_disconnect (s : AdapterState) (clientId : Nat) :
    AdapterState × List Intent :=
  ({ s with retell_clients := dictRemove s.retell_clients clientId }, [])

/-- `RetellVoceraAdapter.on_vocera_disconnect` (retell_adaptor.py, lines
142-147). -/
def on_vocera_disconnect (s : AdapterState) (clientId : Nat) :
    AdapterState × List Intent :=
  ({ s with vocera_clients := dictRemove s.vocera_clients clientId }, [])

/-- Outcome of `send_message` for one client inside `send_to_retell`: the
`try` delivers when the client socket accepts, otherwise the `except` prints
an error and the loop moves on. -/
inductive SendOutcome where
  | delivered (clientId : Nat) (payload : Json)
  | failedLogged (clientId : Nat) (payload : Json)

def SendOutcome.client : SendOutcome → Nat
  | .delivered c _ => c
  | .failedLogged c _ => c

def SendOutcome.isFailure : SendOutcome → Bool
  | .delivered _ _ => false
  | .failedLogged _ _ => true

/-- `RetellVoceraAdapter.send_to_retell` (retell_adaptor.py, lines 177-189):
broadcast `msg` to every stored Retell client; `sockOpen` tells whether a
given client's socket accepts the send.  Each client gets exactly one
`send_message` call inside one `try`/`except`; there is no sleep and no
second attempt anywhere in the function. -/
def send_to_retell (sockOpen : Nat → Bool) (clients : List Nat) (msg : Json) :
    List SendOutcome :=
  if clients.isEmpty then []
  else clients.map fun c =>
    if sockOpen c then SendOutcome.delivered c msg else SendOutcome.failedLogged c msg

/-- Number of `send_message` attempts aimed at client `c` in an outcome
list. -/
def attemptsFor (c : Nat) (outs : List SendOutcome) : Nat :=
  (outs.filter fun o => o.client == c).length

/-- The `ping_pong` reply (retell_adaptor.py, lines 196-199); `now` stands for
`int(time.time() * 1000)`. -/
def pongJson (now : Int) : Json :=
  .obj [("response_type", .str "ping_pong"), ("timestamp", .num now)]

/-- `RetellVoceraAdapter.handle_retell_response_request` (retell_adaptor.py,
lines 218-235): record the incoming `response_id`, then, when the transcript
is non-empty and its last utterance is an object, broadcast its content to the
Vocera side as a user message.  A non-object last utterance raises at
`last_utterance.get`, after `last_response_id` was already assigned; the
caller's `except` logs it. -/
def handle_retell_response_request (s : AdapterState) (data : Json) :
    AdapterState × List Intent :=
  let s' := { s with last_response_id := jsonGetIntOpt data "response_id" }
  match (jsonGetArrD data "transcript").getLast? with
  | none => (s', [])
  | some last =>
    match last with
    | .obj fields =>
      (s', [.broadcastVocera (.obj
        [("content", ((Json.obj fields).getField "content").getD (.str "")),
         ("role", .str "user")])])
    | _ => (s', [.logError "Error handling Retell message"])

/-- `RetellVoceraAdapter.on_retell_message` (retell_adaptor.py, lines
105-128): dispatch on `interaction_type`; `raw = none` models a `json.loads`
failure, which the `except` logs while the state is untouched and nothing is
sent. -/
def on_retell_message (s : AdapterState) (now : Int) (clientId : Nat)
    (raw : Option Json) : AdapterState × List Intent :=
  match raw with
  | none => (s, [.logError "Error handling Retell message"])
  | some data =>
    match jsonGetStrOpt data "interaction_type" with
    | some it =>
      if it = "ping_pong" then (s, [.toRetellClient clientId (pongJson now)])
      else if it = "call_details" then (s, [])
      else if it = "update_only" then (s, [])
      else if it = "response_required" ∨ it = "reminder_required" then
        handle_retell_response_request s data
      else (s, [])
    | none => (s, [])

/-- The `response` envelope built by `handle_vocera_regular_message`
(retell_adaptor.py, lines 243-253): `end_call` is appended exactly when the
lowercased content contains `"end call"` or `"goodbye"`. -/
def responseEnvelope (rid : Int) (content : String) : Json :=
  if strContains (pyLower content) "end call" || strContains (pyLower content) "goodbye" then
    .obj [("response_type", .str "response"), ("response_id", .num rid),
          ("content", .str content), ("content_complete", .bool true),
          ("end_call", .bool true)]
  else
    .obj [("response_type", .str "response"), ("response_id", .num rid),
          ("content", .str content), ("content_complete", .bool true)]

/-- The `agent_interrupt` envelope (retell_adaptor.py, lines 257-264); `now`
stands for `int(time.time() * 1000)`. -/
def interruptEnvelope (now : Int) (content : String) : Json :=
  .obj [("response_type", .str "agent_interrupt"), ("interrupt_id", .num now),
        ("content", .str content), ("content_complete", .bool true),
        ("no_interruption_allowed", .bool true)]

/-- `RetellVoceraAdapter.handle_vocera_regular_message` (retell_adaptor.py,
lines 237-265).  The branch test is Python truthiness of
`self.last_response_id`: both `None` and `0` take the `agent_interrupt`
branch.  The resulting envelope is handed to `send_to_retell`.  Reachable
calls (only from `on_vocera_message`) always carry a string `content`
field. -/
def handle_vocera_regular_message (s : AdapterState) (now : Int)
    (message : Json) : List Intent :=
  let content := jsonGetStrD message "content" ""
  match s.last_response_id with
  | some rid =>
    if rid = 0 then [.broadcastRetell (interruptEnvelope now content)]
    else [.broadcastRetell (responseEnvelope rid content)]
  | none => [.broadcastRetell (interruptEnvelope now content)]

/-- `RetellVoceraAdapter.on_vocera_message` (retell_adaptor.py, lines
149-161): parse, strip the content, silently drop when it is empty, otherwise
hand the original message to `handle_vocera_regular_message`.  `raw = none`
models a `json.loads` failure (logged by the `except`).  The handler never
changes the adapter state. -/
def on_vocera_message (s : AdapterState) (now : Int) (raw : Option Json) :
    AdapterState × List Intent :=
  match raw with
  | none => (s, [.logError "Error handling Vocera message"])
  | some msg =>
    let content := pyStrip (jsonGetStrD msg "content" "")
    if content = "" then (s, [])
    else (s, handle_vocera_regular_message s now msg)

/-- Two speak/text traces carrying `"Hello"` and `"world"`. -/
def demoTraces : List Json :=
  [.obj [("type", .str "speak"), ("payload", .obj [("message", .str "Hello")])],
   .obj [("type", .str "text"), ("payload", .obj [("message", .str "world")])]]

/-- One speak trace with an empty message. -/
def emptyDemoTraces : List Json :=
  [.obj [("type", .str "speak"), ("payload", .obj [("message", .str "")])]]

/-! ### Helper lemmas -/

theorem mem_endEmissions (traces : List Json) (j : Json)
    (h : j ∈ endEmissions traces) : j = endMessageJson := by
  unfold endEmissions at h
  rcases List.mem_filterMap.mp h with ⟨t, _, ht⟩
  split at ht
  · exact absurd ht (by simp)
  · split at ht
    · exact (Option.some.inj ht).symm
    · exact absurd ht (by simp)

theorem endEmissions_no_content (traces : List Json) :
    (endEmissions traces).filter isContentEmission = [] := by
  rw [List.filter_eq_nil_iff]
  intro j hj
  rw [mem_endEmissions traces j hj]
  decide

theorem speakTextMessages_eq_nil (traces : List Json)
    (h : ∀ t ∈ traces, isSpeakOrText t = true → traceMessage t = "") :
    speakTextMessages traces = [] := by
  unfold speakTextMessages
  rw [List.filterMap_eq_nil_iff]
  intro t ht
  by_cases hs : isSpeakOrText t = true
  · simp [hs, h t ht hs]
  · simp [hs]

/-! ### Claim theorems -/

/-- C1: for every list of traces of one interact response whose non-empty
`speak`/`text` messages are not all absent, `process_traces` sends exactly one
combined content message, whose content is those messages joined by single
spaces, and returns that joined string. -/
theorem process_traces_joins_fragments (traces : List Json)
    (h : speakTextMessages traces ≠ []) :
    (process_traces traces).1.filter isContentEmission
      = [contentMessageJson (String.intercalate " " (speakTextMessages traces))]
    ∧ (process_traces traces).2
      = some (String.intercalate " " (speakTextMessages traces)) := by
  unfold process_traces
  simp only [if_neg h]
  constructor
  · rw [List.filter_append, endEmissions_no_content]
    simp [isContentEmission, contentMessageJson]
  · trivial

theorem process_traces_joins_fragments_witness :
    (process_traces demoTraces).1.filter isContentEmission
      = [contentMessageJson (String.intercalate " " (speakTextMessages demoTraces))]
    ∧ (process_traces demoTraces).2
      = some (String.intercalate " " (speakTextMessages demoTraces)) :=
  process_traces_joins_fragments demoTraces (by decide)

/-- C5: when every `speak`/`text` trace of the response carries an empty
message, no combined content message is sent and `process_traces` returns
`None`. -/
theorem process_traces_empty_fragments_silent (traces : List Json)
    (h : ∀ t ∈ traces, isSpeakOrText t = true → traceMessage t = "") :
    (process_traces traces).1.filter isContentEmission = []
    ∧ (process_traces traces).2 = none := by
  have hnil := speakTextMessages_eq_nil traces h
  unfold process_traces
  rw [hnil]
  simp [endEmissions_no_content]

theorem process_traces_empty_fragments_silent_witness :
    (process_traces emptyDemoTraces).1.filter isContentEmission = []
    ∧ (process_traces emptyDemoTraces).2 = none :=
  process_traces_empty_fragments_silent emptyDemoTraces (by decide)

theorem dictRemove_not_mem (l : List Nat) (k : Nat) : k ∉ dictRemove l k := by
  unfold dictRemove
  split
  · intro hk
    have := (List.mem_filter.mp hk).2
    simp at this
  · assumption

theorem dictRemove_of_not_mem (l : List Nat) (k : Nat) (h : k ∉ l) :
    dictRemove l k = l := by
  unfold dictRemove
  exact if_neg h

theorem dictRemove_idem (l : List Nat) (k : Nat) :
    dictRemove (dictRemove l k) k = dictRemove l k :=
  dictRemove_of_not_mem _ _ (dictRemove_not_mem l k)

/-- C2 counterexample: with Retell client 1 and Vocera client 2 connected,
the disconnect of Vocera client 2 issues no intent at all — in particular no
close of any upstream (Retell) connection — and Retell client 1 stays
registered.  The claimed cascade (close the paired upstream connection,
remove the session from every registry index) does not happen. -/
theorem vocera_disconnect_no_upstream_close_cex :
    (on_vocera_disconnect ⟨[1], [2], none⟩ 2).2 = []
    ∧ (on_vocera_disconnect ⟨[1], [2], none⟩ 2).2.filter Intent.isClose = []
    ∧ (on_vocera_disconnect ⟨[1], [2], none⟩ 2).1.retell_clients = [1] :=
  ⟨rfl, rfl, rfl⟩

/-- C2 amended: on a downstream (Vocera) disconnect the adapter only removes
the client from the `vocera_clients` registry; it emits no intent (so it
closes no upstream connection) and leaves the Retell registry and the
response-id state untouched. -/
theorem vocera_disconnect_removes_only_vocera_entry (s : AdapterState)
    (c : Nat) :
    (on_vocera_disconnect s c).2 = []
    ∧ c ∉ (on_vocera_disconnect s c).1.vocera_clients
    ∧ (on_vocera_disconnect s c).1.retell_clients = s.retell_clients
    ∧ (on_vocera_disconnect s c).1.last_response_id = s.last_response_id :=
  ⟨rfl, dictRemove_not_mem s.vocera_clients c, rfl, rfl⟩

theorem vf_disconnect_not_mem (l : List (Nat × String)) (k : Nat) :
    k ∉ (vf_on_client_disconnect l k).map Prod.fst := by
  unfold vf_on_client_disconnect
  split
  · intro hk
    rcases List.mem_map.mp hk with ⟨p, hp, hpk⟩
    have := (List.mem_filter.mp hp).2
    simp at this
    exact this hpk
  · assumption

theorem vf_disconnect_of_not_mem (l : List (Nat × String)) (k : Nat)
    (h : k ∉ l.map Prod.fst) : vf_on_client_disconnect l k = l := by
  unfold vf_on_client_disconnect
  exact if_neg h

theorem vf_disconnect_idem (l : List (Nat × String)) (k : Nat) :
    vf_on_client_disconnect (vf_on_client_disconnect l k) k
      = vf_on_client_disconnect l k :=
  vf_disconnect_of_not_mem _ _ (vf_disconnect_not_mem l k)

/-- C8: destroying a session is idempotent on both adapters — disconnecting
an id that is already absent is an exact no-op (no error, registry returned
unchanged, nothing emitted), and a second disconnect of the same id leaves
the state exactly as the first one did, so the registry size changes only on
the first call. -/
theorem disconnect_idempotent (s : AdapterState)
    (sessions : List (Nat × String)) (c : Nat) :
    (c ∉ s.retell_clients → on_retell_disconnect s c = (s, []))
    ∧ (on_retell_disconnect (on_retell_disconnect s c).1 c).1
        = (on_retell_disconnect s c).1
    ∧ (on_vocera_disconnect (on_vocera_disconnect s c).1 c).1
        = (on_vocera_disconnect s c).1
    ∧ (c ∉ sessions.map Prod.fst → vf_on_client_disconnect sessions c = sessions)
    ∧ vf_on_client_disconnect (vf_on_client_disconnect sessions c) c
        = vf_on_client_disconnect sessions c := by
  refine ⟨?_, ?_, ?_, ?_, ?_⟩
  · intro h
    simp [on_retell_disconnect, dictRemove_of_not_mem _ _ h]
  · simp [on_retell_disconnect, dictRemove_idem]
  · simp [on_vocera_disconnect, dictRemove_idem]
  · intro h
    exact vf_disconnect_of_not_mem _ _ h
  · exact vf_disconnect_idem sessions c

theorem disconnect_idempotent_witness :
    on_retell_disconnect ⟨[1], [2], some 3⟩ 9 = (⟨[1], [2], some 3⟩, [])
    ∧ vf_on_client_disconnect [(4, "u")] 9 = [(4, "u")] :=
  ⟨(disconnect_idempotent ⟨[1], [2], some 3⟩ [(4, "u")] 9).1 (by decide),
   (disconnect_idempotent ⟨[1], [2], some 3⟩ [(4, "u")] 9).2.2.2.1 (by decide)⟩

theorem mem_dictInsert_self (l : List Nat) (k : Nat) : k ∈ dictInsert l k := by
  unfold dictInsert
  split
  · assumption
  · exact List.mem_append.mpr (Or.inr (List.mem_singleton.mpr rfl))

/-- C9: on every new Retell connection the handler registers the client and,
as its only outbound action, sends that client exactly one configuration
envelope with `auto_reconnect`, `call_details` and
`transcript_with_tool_calls` all true; no other state is touched. -/
theorem retell_connect_sends_config (s : AdapterState) (c : Nat) :
    (on_retell_connect s c).2 = [.toRetellClient c configJson]
    ∧ c ∈ (on_retell_connect s c).1.retell_clients
    ∧ (on_retell_connect s c).1.vocera_clients = s.vocera_clients
    ∧ (on_retell_connect s c).1.last_response_id = s.last_response_id
    ∧ configJson.getField "response_type" = some (.str "config")
    ∧ configJson.getField "config"
        = some (.obj [("auto_reconnect", .bool true),
                      ("call_details", .bool true),
                      ("transcript_with_tool_calls", .bool true)]) :=
  ⟨rfl, mem_dictInsert_self s.retell_clients c, rfl, rfl, rfl, rfl⟩

theorem filter_beq_single_of_nodup (l : List Nat) (c : Nat) (hn : l.Nodup)
    (hm : c ∈ l) : l.filter (fun x => x == c) = [c] := by
  induction l with
  | nil => cases hm
  | cons a tl ih =>
    rcases List.nodup_cons.mp hn with ⟨ha, htl⟩
    rw [List.filter_cons]
    by_cases hac : a = c
    · subst hac
      have hnil : tl.filter (fun x => x == a) = [] := by
        rw [List.filter_eq_nil_iff]
        intro x hx
        simp only [beq_iff_eq]
        intro h
        exact ha (h ▸ hx)
      simp [hnil]
    · have hm' : c ∈ tl := by
        rcases List.mem_cons.mp hm with h | h
        · exact absurd h.symm hac
        · exact h
      simp only [beq_iff_eq, hac, if_false]
      exact ih htl hm'

theorem send_to_retell_eq (sockOpen : Nat → Bool) (clients : List Nat)
    (msg : Json) :
    send_to_retell sockOpen clients msg
      = clients.map fun c =>
          if sockOpen c then SendOutcome.delivered c msg
          else SendOutcome.failedLogged c msg := by
  unfold send_to_retell
  split
  · next h => rw [List.isEmpty_iff.mp h]; rfl
  · rfl

theorem sendOutcome_client (sockOpen : Nat → Bool) (msg : Json) (x : Nat) :
    (if sockOpen x then SendOutcome.delivered x msg
     else SendOutcome.failedLogged x msg).client = x := by
  split <;> rfl

/-- C3 counterexample: the only Retell client (id 5) has a socket that does
not accept the send.  `send_to_retell` makes exactly one attempt for that
client — the failure is logged and the message dropped — and never a second
(retried) attempt, refuting the wait-one-second-and-retry-once behaviour. -/
theorem send_to_retell_no_retry_cex :
    send_to_retell (fun _ => false) [5] (.obj [("content", .str "hi")])
      = [.failedLogged 5 (.obj [("content", .str "hi")])]
    ∧ attemptsFor 5 (send_to_retell (fun _ => false) [5]
        (.obj [("content", .str "hi")])) ≠ 2 :=
  ⟨rfl, by decide⟩

/-- C3 amended: for every registered client, an outbound broadcast makes
exactly one send attempt per client; when that client's socket rejects the
send, the outcome for it is a single logged failure (the message is dropped),
with no delay and no retry. -/
theorem send_to_retell_single_attempt (sockOpen : Nat → Bool)
    (clients : List Nat) (msg : Json) (c : Nat)
    (hm : c ∈ clients) (hn : clients.Nodup) :
    attemptsFor c (send_to_retell sockOpen clients msg) = 1
    ∧ (sockOpen c = false →
        (send_to_retell sockOpen clients msg).filter (fun o => o.client == c)
          = [.failedLogged c msg]) := by
  have key : (send_to_retell sockOpen clients msg).filter
        (fun o => o.client == c)
      = [if sockOpen c then SendOutcome.delivered c msg
         else SendOutcome.failedLogged c msg] := by
    rw [send_to_retell_eq, List.filter_map]
    have hcomp : ((fun o => SendOutcome.client o == c) ∘ fun x =>
        if sockOpen x then SendOutcome.delivered x msg
        else SendOutcome.failedLogged x msg) = fun x => x == c := by
      funext x
      simp [Function.comp, sendOutcome_client]
    rw [hcomp, filter_beq_single_of_nodup clients c hn hm]
    rfl
  constructor
  · unfold attemptsFor
    rw [key]
    rfl
  · intro hf
    rw [key]
    simp [hf]

theorem send_to_retell_single_attempt_witness :
    attemptsFor 7 (send_to_retell (fun _ => false) [7] (.obj [])) = 1
    ∧ (send_to_retell (fun _ => false) [7] (.obj [])).filter
        (fun o => o.client == 7) = [.failedLogged 7 (.obj [])] :=
  ⟨(send_to_retell_single_attempt (fun _ => false) [7] (.obj []) 7
      (by decide) (by decide)).1,
   (send_to_retell_single_attempt (fun _ => false) [7] (.obj []) 7
      (by decide) (by decide)).2 rfl⟩

/-- C4 counterexample: a prior `response_required` carrying `response_id` 0
leaves `last_response_id = 0`, which is Python-falsy; the next inbound Vocera
message with non-empty content is then emitted as an `agent_interrupt`
envelope (with no `response_id` field) instead of the claimed `response`
envelope carrying the pending id 0. -/
theorem pending_zero_response_id_interrupt_cex :
    (handle_retell_response_request ⟨[1], [2], none⟩
        (.obj [("response_id", .num 0)])).1.last_response_id = some 0
    ∧ on_vocera_message
        (handle_retell_response_request ⟨[1], [2], none⟩
          (.obj [("response_id", .num 0)])).1 99
        (some (.obj [("content", .str "Hello")]))
      = ((handle_retell_response_request ⟨[1], [2], none⟩
          (.obj [("response_id", .num 0)])).1,
         [.broadcastRetell (interruptEnvelope 99 "Hello")])
    ∧ (interruptEnvelope 99 "Hello").getField "response_type"
        = some (.str "agent_interrupt")
    ∧ (interruptEnvelope 99 "Hello").getField "response_id" = none :=
  ⟨rfl, rfl, rfl, rfl⟩

/-- C4 amended: for every inbound Vocera message whose content is non-empty
after stripping: when the pending `last_response_id` is a non-zero integer
the adapter broadcasts exactly one `response` envelope carrying that id, the
content and `content_complete = true`; when no id is pending — or the pending
id is 0, which Python truthiness treats the same — it broadcasts exactly one
`agent_interrupt` envelope marked `no_interruption_allowed = true`. -/
theorem vocera_message_dispatch_branches (rc vc : List Nat) (lri : Option Int)
    (now : Int) (content : String) (h : pyStrip content ≠ "") :
    (∀ rid, lri = some rid → rid ≠ 0 →
      on_vocera_message ⟨rc, vc, lri⟩ now
          (some (.obj [("content", .str content)]))
        = (⟨rc, vc, lri⟩, [.broadcastRetell (responseEnvelope rid content)])
      ∧ (responseEnvelope rid content).getField "response_type"
          = some (.str "response")
      ∧ (responseEnvelope rid content).getField "response_id"
          = some (.num rid)
      ∧ (responseEnvelope rid content).getField "content"
          = some (.str content)
      ∧ (responseEnvelope rid content).getField "content_complete"
          = some (.bool true))
    ∧ ((lri = none ∨ lri = some 0) →
      on_vocera_message ⟨rc, vc, lri⟩ now
          (some (.obj [("content", .str content)]))
        = (⟨rc, vc, lri⟩, [.broadcastRetell (interruptEnvelope now content)])
      ∧ (interruptEnvelope now content).getField "response_type"
          = some (.str "agent_interrupt")
      ∧ (interruptEnvelope now content).getField "no_interruption_allowed"
          = some (.bool true)
      ∧ (interruptEnvelope now content).getField "content"
          = some (.str content)
      ∧ (interruptEnvelope now content).getField "content_complete"
          = some (.bool true)) := by
  constructor
  · intro rid hl hr
    subst hl
    refine ⟨?_, ?_, ?_, ?_, ?_⟩
    · simp [on_vocera_message, handle_vocera_regular_message, jsonGetStrD,
            Json.getField, h, hr]
    · unfold responseEnvelope
      split <;> rfl
    · unfold responseEnvelope
      split <;> rfl
    · unfold responseEnvelope
      split <;> rfl
    · unfold responseEnvelope
      split <;> rfl
  · intro hl
    have hmain : ∀ z : Option Int, z = none ∨ z = some 0 →
        on_vocera_message ⟨rc, vc, z⟩ now
            (some (.obj [("content", .str content)]))
          = (⟨rc, vc, z⟩, [.broadcastRetell (interruptEnvelope now content)]) := by
      intro z hz
      rcases hz with hz | hz <;> subst hz <;>
        simp [on_vocera_message, handle_vocera_regular_message, jsonGetStrD,
              Json.getField, h]
    exact ⟨hmain lri hl, rfl, rfl, rfl, rfl⟩

theorem vocera_message_dispatch_branches_witness :
    on_vocera_message ⟨[], [], some 7⟩ 0
        (some (.obj [("content", .str "Hello")]))
      = (⟨[], [], some 7⟩, [.broadcastRetell (responseEnvelope 7 "Hello")]) :=
  ((vocera_message_dispatch_branches [] [] (some 7) 0 "Hello"
      (by decide)).1 7 rfl (by decide)).1

/-- C10: when a non-zero response id is pending, the emitted `response`
envelope carries `end_call = true` exactly when the lowercased content
contains `"end call"` or `"goodbye"`, and carries no `end_call` field
otherwise. -/
theorem response_end_call_iff_phrase (rc vc : List Nat) (rid now : Int)
    (content : String) (h : rid ≠ 0) :
    handle_vocera_regular_message ⟨rc, vc, some rid⟩ now
        (.obj [("content", .str content)])
      = [.broadcastRetell (responseEnvelope rid content)]
    ∧ ((responseEnvelope rid content).getField "end_call" = some (.bool true)
        ↔ (strContains (pyLower content) "end call"
            || strContains (pyLower content) "goodbye") = true)
    ∧ ((strContains (pyLower content) "end call"
        || strContains (pyLower content) "goodbye") = false
        → (responseEnvelope rid content).getField "end_call" = none) := by
  refine ⟨?_, ?_, ?_⟩
  · simp [handle_vocera_regular_message, jsonGetStrD, Json.getField, h]
  · by_cases hc : (strContains (pyLower content) "end call"
        || strContains (pyLower content) "goodbye") = true
    · simp [responseEnvelope, hc, Json.getField, List.lookup]
    · have hc' := eq_false_of_ne_true hc
      simp [responseEnvelope, hc', Json.getField, List.lookup]
  · intro hc
    simp [responseEnvelope, hc, Json.getField, List.lookup]

theorem response_end_call_iff_phrase_witness :
    handle_vocera_regular_message ⟨[], [], some 5⟩ 0
        (.obj [("content", .str "Goodbye")])
      = [.broadcastRetell (responseEnvelope 5 "Goodbye")]
    ∧ ((responseEnvelope 5 "Goodbye").getField "end_call" = some (.bool true)
        ↔ (strContains (pyLower "Goodbye") "end call"
            || strContains (pyLower "Goodbye") "goodbye") = true)
    ∧ ((strContains (pyLower "Goodbye") "end call"
        || strContains (pyLower "Goodbye") "goodbye") = false
        → (responseEnvelope 5 "Goodbye").getField "end_call" = none) :=
  response_end_call_iff_phrase [] [] 5 0 "Goodbye" (by decide)

/-- C6: an inbound downstream message whose `content` field is missing, empty
or whitespace-only is silently ignored on both adapters: state unchanged and
nothing emitted at all. -/
theorem empty_content_ignored (s : AdapterState)
    (sessions : List (Nat × String)) (now : Int) (msg : Json)
    (h : pyStrip (jsonGetStrD msg "content" "") = "") :
    on_vocera_message s now (some msg) = (s, [])
    ∧ vf_on_client_message sessions (some msg) = (sessions, []) := by
  constructor
  · simp [on_vocera_message, h]
  · simp [vf_on_client_message, h]

theorem empty_content_ignored_witness :
    on_vocera_message ⟨[1], [2], some 3⟩ 0
        (some (.obj [("content", .str "  ")]))
      = (⟨[1], [2], some 3⟩, [])
    ∧ vf_on_client_message [(4, "u")] (some (.obj [("content", .str "  ")]))
      = ([(4, "u")], []) :=
  empty_content_ignored ⟨[1], [2], some 3⟩ [(4, "u")] 0
    (.obj [("content", .str "  ")]) (by decide)

/-- C7: a message that is not valid JSON is dropped by every message handler:
the failure is logged, nothing is sent, no connection is closed, and the
state is unchanged; the handler returns normally, so the connection stays
open. -/
theorem malformed_json_dropped (s : AdapterState)
    (sessions : List (Nat × String)) (now : Int) (clientId : Nat) :
    (on_retell_message s now clientId none).1 = s
    ∧ (on_retell_message s now clientId none).2.filter Intent.isSend = []
    ∧ (on_retell_message s now clientId none).2.filter Intent.isClose = []
    ∧ (on_vocera_message s now none).1 = s
    ∧ (on_vocera_message s now none).2.filter Intent.isSend = []
    ∧ (on_vocera_message s now none).2.filter Intent.isClose = []
    ∧ (vf_on_client_message sessions none).1 = sessions
    ∧ (vf_on_client_message sessions none).2.filter VFEvent.isForwarded = [] :=
  ⟨rfl, rfl, rfl, rfl, rfl, rfl, rfl, rfl⟩
